import Mathlib

/-!
Verification of the `parquet2hive` repository's packaging manifest
(`src/setup.py`) against its natural-language specification.

The only source file is `setup.py`, a pure `setuptools` manifest: a single
call to `setup` whose every argument is a string literal or a list of string
literals.  We embed that call as a concrete record `setupCall` of type
`SetupArgs` and prove the packaging-level properties of the spec about it.
The CLI logic itself (the `parquet2hive` script and the
`parquet2hive_modules` package) is absent from the source, so the one
functional claim about it is settled against a definition modelled from the
spec's words (see `statementSet` below).
-/

namespace Parquet2Hive

/-- The keyword arguments of a `setuptools.setup` call, restricted to the
fields that `src/setup.py` passes.  Each field mirrors the argument of the
same name in the Python source. -/
structure SetupArgs where
  name : String
  version : String
  author : String
  author_email : String
  description : String
  url : String
  scripts : List String
  packages : List String
  install_requires : List String
  setup_requires : List String
  tests_require : List String
deriving Repr, DecidableEq

/-- The one `setup(...)` call of `src/setup.py`, lines 3-13, transcribed
field by field from the source. -/
def setupCall : SetupArgs :=
  { name := "parquet2hive"
  , version := "0.2.16"
  , author := "Roberto Agostino Vitillo"
  , author_email := "rvitillo@mozilla.com"
  , description := "Hive import statement generator for Parquet datasets"
  , url := "https://github.com/mozilla/parquet2hive"
  , scripts := ["parquet2hive"]
  , packages := ["parquet2hive_modules"]
  , install_requires := ["boto3", "functools32", "thrift", "boto>=2.36.0"]
  , setup_requires := ["pytest-runner"]
  , tests_require := ["pytest", "moto", "wheel[signatures]", "jsonschema"] }

/-! ### Requirement strings and version constraints

`install_requires` entries follow the `pkg_resources` requirement syntax:
a distribution name, optionally followed by a comparison operator and a
version.  We model the fragment that the manifest uses: the name is the
maximal leading run of characters that are not specifier characters, and
the only operator appearing in the source is `>=`. -/

/-- Characters that begin a version-specifier suffix of a requirement
string (the comparison-operator alphabet of `pkg_resources`). -/
def specifierChars : List Char := ['<', '>', '=', '!', '~']

/-- The distribution name of a requirement string: everything before the
first specifier character.  `reqName "boto>=2.36.0" = "boto"`. -/
def reqName (r : String) : String :=
  String.mk (r.toList.takeWhile (fun c => !specifierChars.contains c))

/-- The version-constraint suffix of a requirement string, as characters:
everything from the first specifier character on.  Empty when the
requirement is unconstrained. -/
def reqConstraintChars (r : String) : List Char :=
  r.toList.dropWhile (fun c => !specifierChars.contains c)

/-- The version-constraint suffix of a requirement string as a string. -/
def reqConstraint (r : String) : String :=
  String.mk (reqConstraintChars r)

/-- Whether a requirement string carries a version constraint. -/
def hasConstraint (r : String) : Bool :=
  !(reqConstraintChars r).isEmpty

/-- Splits a character list on the dot separator:
`splitDots "2.36.0".toList = ["2".toList, "36".toList, "0".toList]`. -/
def splitDots : List Char → List (List Char)
  | [] => [[]]
  | c :: cs =>
    if c = '.' then [] :: splitDots cs
    else
      match splitDots cs with
      | [] => [[c]]
      | p :: ps => (c :: p) :: ps

/-- The numeric value of a decimal digit string, as `int` conversion of a
version component does. -/
def natOfDigits (cs : List Char) : Nat :=
  cs.foldl (fun n c => n * 10 + (c.toNat - 48)) 0

/-- A release version from its characters, as its dot-separated numeric
components. -/
def parseVersionChars (cs : List Char) : List Nat :=
  (splitDots cs).map natOfDigits

/-- A release version as its dot-separated numeric components:
`parseVersion "2.36.0" = [2, 36, 0]`. -/
def parseVersion (s : String) : List Nat :=
  parseVersionChars s.toList

/-- Lexicographic less-or-equal on version component lists, with missing
trailing components reading as zero (so `2.36 ≤ 2.36.0`). -/
def versionLe : List Nat → List Nat → Bool
  | [], _ => true
  | a :: as, [] => a == 0 && versionLe as []
  | a :: as, b :: bs => a < b || (a == b && versionLe as bs)

/-- Whether a concrete version `v` satisfies a requirement string `r`.
Only the `>=` operator occurs in the manifest; an unconstrained
requirement is satisfied by every version. -/
def satisfies (v : List Nat) (r : String) : Bool :=
  match reqConstraintChars r with
  | [] => true
  | '>' :: '=' :: rest => versionLe (parseVersionChars rest) v
  | _ => false

/-- A requirement set is satisfiable when some assignment of one version
per distribution name satisfies every requirement in the list. -/
def Satisfiable (reqs : List String) : Prop :=
  ∃ f : String → List Nat, ∀ r ∈ reqs, satisfies (f (reqName r)) r = true

/-! ### The evaluation of the module (claim C9)

`setup.py` consists of one import and one `setup(...)` call whose arguments
are all literals.  We model an evaluation environment (environment
variables and file contents, the external inputs a `setup.py` could in
principle consult) and the evaluation of the module as the list of `setup`
calls it performs; the module reads nothing from the environment. -/

/-- An evaluation environment for a Python module: environment variables
and the file system, the external inputs a manifest could read. -/
structure PyEnv where
  envVars : List (String × String)
  files : List (String × String)
deriving Repr, DecidableEq

/-- Evaluating `src/setup.py` in an environment: the module performs
exactly one `setup` call, with the literal argument record `setupCall`,
reading nothing from the environment. -/
def runSetupModule (_e : PyEnv) : List SetupArgs := [setupCall]

/-! ### The packaged utility (claim C8)

Modelled from the spec: the `parquet2hive` script and the
`parquet2hive_modules` package are not in the provided source; the spec
describes the utility as scanning an S3-backed Parquet dataset partition
layout and emitting a Hive-compatible `CREATE EXTERNAL TABLE` /
`ALTER TABLE ... ADD PARTITION` statement set per dataset. -/

/-- Modelled from the spec: an S3-backed Parquet dataset as the CLI sees
it — a table name, its S3 location, and the path-encoded `key=value`
partitions found by scanning the layout.  The script and package holding
the real definition are missing from the source. -/
structure S3Dataset where
  tableName : String
  location : String
  partitions : List (List (String × String))
deriving Repr, DecidableEq

/-- Modelled from the spec: one `key=value` partition component rendered
for a Hive partition spec. -/
def renderPartitionPair (p : String × String) : String :=
  p.1 ++ "=" ++ p.2

/-- Modelled from the spec: the Hive DDL creating an external table over
the dataset's S3 location. -/
def createExternalTable (d : S3Dataset) : String :=
  "CREATE EXTERNAL TABLE " ++ d.tableName ++
    " STORED AS PARQUET LOCATION " ++ d.location

/-- Modelled from the spec: the Hive DDL registering one discovered
partition of the dataset. -/
def addPartition (d : S3Dataset) (p : List (String × String)) : String :=
  "ALTER TABLE " ++ d.tableName ++ " ADD PARTITION (" ++
    String.intercalate ", " (p.map renderPartitionPair) ++ ")"

/-- Modelled from the spec: the statement set the utility emits for one
dataset — the `CREATE EXTERNAL TABLE` statement followed by one
`ALTER TABLE ... ADD PARTITION` statement per discovered partition. -/
def statementSet (d : S3Dataset) : List String :=
  createExternalTable d :: d.partitions.map (addPartition d)

/-- Modelled from the spec: running the utility against a scanned layout
emits a statement set for every dataset it is pointed at. -/
def parquet2hive (layout : List S3Dataset) : List (List String) :=
  layout.map statementSet

/-- Every non-empty-string check used by claim C10, as a decidable
Boolean. -/
def nonEmptyStr (s : String) : Bool := !s.isEmpty

/-- A list is a non-empty list of non-empty strings. -/
def nonEmptyStrList (l : List String) : Bool :=
  !l.isEmpty && l.all nonEmptyStr

/-- A concrete dataset used to instantiate the claim about the utility's
output on a sample layout. -/
def sampleDataset : S3Dataset :=
  { tableName := "telemetry"
  , location := "s3://bucket/telemetry/v1"
  , partitions := [[("submission_date", "20160101")], [("submission_date", "20160102")]] }

/-- A one-dataset layout for the same instantiation. -/
def sampleLayout : List S3Dataset := [sampleDataset]

/-- C1: the manifest declares and exposes exactly one executable script,
named `parquet2hive`: the `scripts` argument passed to `setup` is the
one-element list containing "parquet2hive". -/
theorem scripts_is_singleton_parquet2hive :
    setupCall.scripts = ["parquet2hive"] := rfl

/-- C2: the set of packages installed by the distribution includes
`parquet2hive_modules`: the `packages` argument passed to `setup` contains
the string "parquet2hive_modules". -/
theorem packages_contains_modules :
    "parquet2hive_modules" ∈ setupCall.packages := by decide

/-- C3: the declared runtime dependencies are exactly the four
requirements `boto3`, `functools32`, `thrift`, `boto>=2.36.0`, in that
order. -/
theorem install_requires_exact :
    setupCall.install_requires = ["boto3", "functools32", "thrift", "boto>=2.36.0"] := rfl

/-- C4: the distribution metadata names the project `parquet2hive` with
version `0.2.16`. -/
theorem name_and_version :
    setupCall.name = "parquet2hive" ∧ setupCall.version = "0.2.16" :=
  ⟨rfl, rfl⟩

/-- C5: the declared test-time dependencies are exactly `pytest`, `moto`,
`wheel[signatures]`, and `jsonschema`. -/
theorem tests_require_exact :
    setupCall.tests_require = ["pytest", "moto", "wheel[signatures]", "jsonschema"] := rfl

/-- C6: the only declared build/test setup hook is `pytest-runner`: the
`setup_requires` argument is the one-element list containing
"pytest-runner". -/
theorem setup_requires_singleton :
    setupCall.setup_requires = ["pytest-runner"] := rfl

/-- C7: the declared dependency constraints are satisfiable: exactly one
requirement string of `install_requires` (namely `boto>=2.36.0`) carries a
version constraint, each package name appears at most once, the
requirement `boto>=2.36.0` holds of a version exactly when that version is
at least 2.36.0 (so every such version satisfies it, in particular 2.36.0
itself), and one version assignment satisfies every declared requirement
at once. -/
theorem install_requires_satisfiable :
    setupCall.install_requires.filter hasConstraint = ["boto>=2.36.0"] ∧
    (setupCall.install_requires.map reqName).Nodup ∧
    (∀ v : List Nat, satisfies v "boto>=2.36.0" = versionLe [2, 36, 0] v) ∧
    satisfies [2, 36, 0] "boto>=2.36.0" = true ∧
    Satisfiable setupCall.install_requires := by
  refine ⟨by decide, by decide, fun v => rfl, by decide, ?_⟩
  exact ⟨fun _ => [2, 36, 0], by decide⟩

/-- C8: for every dataset in the layout the utility is pointed at, the
emitted output contains that dataset's statement set, which consists of
its `CREATE EXTERNAL TABLE` statement followed by one
`ALTER TABLE ... ADD PARTITION` statement per discovered partition, and
one statement set is emitted per dataset.  The emitter is modelled from
the spec because the script and package implementing it are not in the
provided source. -/
theorem parquet2hive_emits_statement_sets (layout : List S3Dataset)
    (d : S3Dataset) (hd : d ∈ layout) :
    statementSet d ∈ parquet2hive layout ∧
    (statementSet d).head? = some (createExternalTable d) ∧
    (statementSet d).tail = d.partitions.map (addPartition d) ∧
    (parquet2hive layout).length = layout.length :=
  ⟨List.mem_map_of_mem statementSet hd, rfl, rfl, by simp [parquet2hive]⟩

/-- Witness for C8: the theorem instantiated on a concrete one-dataset
layout, with the membership hypothesis discharged by evaluation. -/
theorem parquet2hive_emits_statement_sets_witness :
    sampleDataset ∈ sampleLayout ∧
    (statementSet sampleDataset ∈ parquet2hive sampleLayout ∧
     (statementSet sampleDataset).head? = some (createExternalTable sampleDataset) ∧
     (statementSet sampleDataset).tail = sampleDataset.partitions.map (addPartition sampleDataset) ∧
     (parquet2hive sampleLayout).length = sampleLayout.length) :=
  ⟨by decide, parquet2hive_emits_statement_sets sampleLayout sampleDataset (by decide)⟩

/-- C9: evaluating the manifest is deterministic: in every pair of
evaluation environments the module performs the same calls, it calls
`setup` exactly once, and the keyword-argument record of that call is the
literal record `setupCall`, independent of environment variables and file
contents. -/
theorem runSetupModule_deterministic (e₁ e₂ : PyEnv) :
    runSetupModule e₁ = runSetupModule e₂ ∧
    (runSetupModule e₁).length = 1 ∧
    runSetupModule e₁ = [setupCall] :=
  ⟨rfl, rfl, rfl⟩

/-- C10: every metadata field passed to `setup` is non-empty: each string
field is a non-empty string and each list field is a non-empty list of
non-empty strings. -/
theorem setup_fields_nonempty :
    nonEmptyStr setupCall.name = true ∧
    nonEmptyStr setupCall.version = true ∧
    nonEmptyStr setupCall.author = true ∧
    nonEmptyStr setupCall.author_email = true ∧
    nonEmptyStr setupCall.description = true ∧
    nonEmptyStr setupCall.url = true ∧
    nonEmptyStrList setupCall.scripts = true ∧
    nonEmptyStrList setupCall.packages = true ∧
    nonEmptyStrList setupCall.install_requires = true ∧
    nonEmptyStrList setupCall.setup_requires = true ∧
    nonEmptyStrList setupCall.tests_require = true := by
  decide

end Parquet2Hive
